import Mathlib

/-!
Shallow embedding of the chat session controller of the
Personalised AI Research Assistant frontend.

Source files embedded:
- src/frontend/pages/chat.tsx        (the live page: `sendMessage`, `handleUpload`)
- src/frontend/components/ChatWindow.tsx  (component variant with the `toolUsed` advisory flag)

React `useState` state is modelled as explicit records; each `sendMessage`
invocation is modelled as a pure function from the pre-call state and the
network outcome to the post-call state, together with a Bool recording
whether the fetch was dispatched.  JavaScript falsy coalescing
(`data.answer || "..."`) is modelled by `jsOr` on `Option String`, where
`none` stands for a missing/undefined field and `some ""` for an empty string.
-/

namespace AIRA

/-- Sender of a transcript message (`sender: 'user' | 'assistant'`). -/
inductive Sender : Type
  | user
  | assistant
deriving DecidableEq

/-- A transcript message (`type Message = { sender; content; isLoading? }`).
`isLoading` is the pending flag of a deep-research placeholder; the optional
TS field is modelled as a Bool that is `false` whenever the source omits it. -/
structure Message where
  sender : Sender
  content : String
  isLoading : Bool
deriving DecidableEq

/-- Outcome of one `fetch("http://localhost:8000/chat")` call, as observed by
the controller: a parsed JSON body (with optional `answer` and `tools_used`
fields), or one of the three failure paths that all land in the `catch` block. -/
inductive ChatOutcome : Type
  | ok (answer : Option String) (toolsUsed : Option (List String))
  | httpError (status : Nat)
  | networkError
  | parseError
deriving DecidableEq

/-- Whether the chat outcome takes the `catch` path of `sendMessage`. -/
def ChatOutcome.isFailure : ChatOutcome → Bool
  | .ok _ _ => false
  | _ => true

/-- Outcome of one `fetch("http://localhost:8000/upload")` call.  The success
body carries `session_id` and an optional `summary`. -/
inductive UploadOutcome : Type
  | ok (sessionIdVal : String) (summaryVal : Option String)
  | httpError (status : Nat)
  | networkError
deriving DecidableEq

/-- Whether the upload outcome takes the `catch` path of `handleUpload`. -/
def UploadOutcome.isFailure : UploadOutcome → Bool
  | .ok _ _ => false
  | _ => true

/-- JavaScript `String.prototype.trim()`: strip whitespace from both ends.
Modelled structurally on the character list so that concrete calls compute. -/
def jsTrim (s : String) : String :=
  String.mk (((s.data.dropWhile Char.isWhitespace).reverse.dropWhile Char.isWhitespace).reverse)

/-- JavaScript `v || fallback` for an optional string field: missing (`none`)
and empty-string values are both falsy and yield the fallback. -/
def jsOr (v : Option String) (fallback : String) : String :=
  match v with
  | some s => if s = "" then fallback else s
  | none => fallback

/-- The fixed marker used when the service returns no answer (`"*(No answer)*"`). -/
def noAnswerMarker : String := "*(No answer)*"

/-- The fixed error text written on any chat failure. -/
def errText : String := "Error: Failed to get answer."

/-- The deep-research placeholder message appended while the research call is
pending (`{ sender: 'assistant', content: 'Conducting deep research...', isLoading: true }`). -/
def placeholderMsg : Message :=
  { sender := Sender.assistant, content := "Conducting deep research...", isLoading := true }

/-- The guidance message appended when `ask` is issued without a session. -/
def guidanceMsg : Message :=
  { sender := Sender.assistant, content := "Please upload a document first.", isLoading := false }

/-- The error message appended when the document upload fails. -/
def uploadErrMsg : Message :=
  { sender := Sender.assistant, content := "Error: Failed to summarize document.", isLoading := false }

/-- The text the controller writes into the exchange's terminal assistant
message: `data.answer || "*(No answer)*"` on success, the fixed error text on
any failure. -/
def responseText (outcome : ChatOutcome) : String :=
  match outcome with
  | .ok answer _ => jsOr answer noAnswerMarker
  | _ => errText

/-- The transcript while the request is in flight: the trimmed question has
been appended as a `user` message, and in research mode the pending
placeholder has been appended directly after it. -/
def pendingOf (msgs : List Message) (question : String) (useResearch : Bool) : List Message :=
  if useResearch then
    msgs ++ [{ sender := Sender.user, content := question, isLoading := false }, placeholderMsg]
  else
    msgs ++ [{ sender := Sender.user, content := question, isLoading := false }]

/-- Reconciliation of the response into the transcript, as written in the
source: `if (useResearch && placeholderIndex !== null)` overwrite the captured
index in place, otherwise append a new terminal assistant message. -/
def reconcileMessages (msgs : List Message) (useResearch : Bool)
    (placeholderIndex : Option Nat) (text : String) : List Message :=
  match useResearch, placeholderIndex with
  | true, some i => msgs.set i { sender := Sender.assistant, content := text, isLoading := false }
  | _, _ => msgs ++ [{ sender := Sender.assistant, content := text, isLoading := false }]

/-- The transcript after a full dispatched exchange starting from transcript
`msgs` and trimmed question `question`.  `placeholderIndex` is captured from
the stale closure over the pre-exchange `messages`, i.e. `msgs.length + 1`,
exactly as the source computes it. -/
def exchangeMessages (msgs : List Message) (question : String) (useResearch : Bool)
    (text : String) : List Message :=
  reconcileMessages (pendingOf msgs question useResearch) useResearch
    (if useResearch then some (msgs.length + 1) else none) text

/-- State of the chat page `src/frontend/pages/chat.tsx` (the `useState`
hooks relevant to the controller; `file` is modelled by its presence). -/
structure ChatState where
  personality : String
  sessionId : Option String
  summary : String
  messages : List Message
  input : String
  isTyping : Bool
  uploading : Bool
  hasFile : Bool
deriving DecidableEq

/-- `sendMessage(useResearch)` of chat.tsx: guard on empty trimmed input or an
in-flight exchange, guard on a missing session (guidance message, no fetch),
then optimistic append of the user message, optional placeholder append,
dispatch, reconciliation of the outcome, and the `finally` reset of
`isTyping`.  The Bool records whether the fetch was dispatched. -/
def sendMessage (st : ChatState) (useResearch : Bool) (outcome : ChatOutcome) :
    ChatState × Bool :=
  if jsTrim st.input = "" ∨ st.isTyping = true then (st, false)
  else
    match st.sessionId with
    | none => ({ st with messages := st.messages ++ [guidanceMsg] }, false)
    | some _ =>
      ({ st with
          input := "",
          isTyping := false,
          messages := exchangeMessages st.messages (jsTrim st.input) useResearch
            (responseText outcome) }, true)

/-- `handleUpload` of chat.tsx: no-op without a file; on success set
`sessionId` and `summary` (`data.summary || ""`); on failure append the fixed
upload error message; `finally` clears `uploading`. -/
def handleUpload (st : ChatState) (outcome : UploadOutcome) : ChatState :=
  if st.hasFile = false then st
  else
    match outcome with
    | .ok sid summ =>
        { st with uploading := false, sessionId := some sid, summary := jsOr summ "" }
    | _ =>
        { st with uploading := false, messages := st.messages ++ [uploadErrMsg] }

/-- User-interface events that drive the chat page state. -/
inductive ChatEvent : Type
  | setInput (s : String)
  | setPersonality (p : String)
  | chooseFile
  | upload (o : UploadOutcome)
  | send (r : Bool) (o : ChatOutcome)

/-- One event step of the chat page. -/
def chatStep (st : ChatState) (ev : ChatEvent) : ChatState :=
  match ev with
  | .setInput s => { st with input := s }
  | .setPersonality p => { st with personality := p }
  | .chooseFile => { st with hasFile := true }
  | .upload o => handleUpload st o
  | .send r o => (sendMessage st r o).fst

/-- A run of the chat page over a sequence of events. -/
def chatRun (st : ChatState) (evs : List ChatEvent) : ChatState :=
  evs.foldl chatStep st

/-- The advisory banner text (`setToolUsed("Invoking research tool...")`). -/
def bannerText : String := "Invoking research tool..."

/-- State of the `ChatWindow` component (`messages`, `input`, `isLoading`,
`toolUsed`); its `sessionId`, `personality` and `summary` props do not affect
the controller logic. -/
structure CWState where
  messages : List Message
  input : String
  isLoading : Bool
  toolUsed : Option String
deriving DecidableEq

/-- `if (data.tools_used && data.tools_used.includes("Bing Search"))
setToolUsed(...)`: a missing field is falsy, a present list (even empty) is
truthy and is checked for membership of the literal `"Bing Search"`. -/
def updateToolUsed (old : Option String) (toolsUsed : Option (List String)) : Option String :=
  match toolsUsed with
  | some ts => if "Bing Search" ∈ ts then some bannerText else old
  | none => old

/-- The advisory flag after one exchange: updated on the success path only
(the `catch` path never touches `toolUsed`). -/
def toolAfter (old : Option String) (outcome : ChatOutcome) : Option String :=
  match outcome with
  | .ok _ toolsUsed => updateToolUsed old toolsUsed
  | _ => old

/-- `sendMessage(useResearch)` of ChatWindow.tsx: same guard, append,
placeholder, reconciliation and `finally` structure as the page, plus the
advisory-flag update on the success path.  The component's `sessionId` prop is
always a string, so there is no missing-session branch. -/
def cwSendMessage (st : CWState) (useResearch : Bool) (outcome : ChatOutcome) :
    CWState × Bool :=
  if jsTrim st.input = "" ∨ st.isLoading = true then (st, false)
  else
    ({ st with
        input := "",
        isLoading := false,
        toolUsed := toolAfter st.toolUsed outcome,
        messages := exchangeMessages st.messages (jsTrim st.input) useResearch
          (responseText outcome) }, true)

/-- User-interface events that drive the ChatWindow state. -/
inductive CWEvent : Type
  | setInput (s : String)
  | send (r : Bool) (o : ChatOutcome)

/-- One event step of the ChatWindow component. -/
def cwStep (st : CWState) (ev : CWEvent) : CWState :=
  match ev with
  | .setInput s => { st with input := s }
  | .send r o => (cwSendMessage st r o).fst

/-- A run of the ChatWindow component over a sequence of events. -/
def cwRun (st : CWState) (evs : List CWEvent) : CWState :=
  evs.foldl cwStep st

/-! ## Helper lemmas -/

theorem set_after_pair (l : List Message) (u p m : Message) :
    (l ++ [u, p]).set (l.length + 1) m = l ++ [u, m] := by
  induction l with
  | nil => rfl
  | cons x t ih =>
      simp only [List.cons_append, List.length_cons, List.set, List.append_eq]
      rw [ih]

theorem exchangeMessages_eq (msgs : List Message) (q t : String) (r : Bool) :
    exchangeMessages msgs q r t
      = msgs ++ [{ sender := Sender.user, content := q, isLoading := false },
                 { sender := Sender.assistant, content := t, isLoading := false }] := by
  cases r with
  | false =>
      simp [exchangeMessages, pendingOf, reconcileMessages]
  | true =>
      simp only [exchangeMessages, pendingOf, reconcileMessages, if_pos]
      exact set_after_pair msgs _ placeholderMsg _

theorem responseText_of_failure (o : ChatOutcome) (h : o.isFailure = true) :
    responseText o = errText := by
  cases o with
  | ok a ts => simp [ChatOutcome.isFailure] at h
  | httpError s => rfl
  | networkError => rfl
  | parseError => rfl

theorem toolAfter_of_failure (old : Option String) (o : ChatOutcome)
    (h : o.isFailure = true) : toolAfter old o = old := by
  cases o with
  | ok a ts => simp [ChatOutcome.isFailure] at h
  | httpError s => rfl
  | networkError => rfl
  | parseError => rfl

theorem toolAfter_cases (old : Option String) (o : ChatOutcome) :
    toolAfter old o = old ∨ toolAfter old o = some bannerText := by
  cases o with
  | ok a ts =>
      cases ts with
      | none => exact Or.inl rfl
      | some l =>
          by_cases hm : "Bing Search" ∈ l
          · exact Or.inr (by simp [toolAfter, updateToolUsed, hm])
          · exact Or.inl (by simp [toolAfter, updateToolUsed, hm])
  | httpError s => exact Or.inl rfl
  | networkError => exact Or.inl rfl
  | parseError => exact Or.inl rfl

theorem sendMessage_dispatch (st : ChatState) (r : Bool) (o : ChatOutcome)
    (h1 : ¬ jsTrim st.input = "") (h2 : st.isTyping = false) (sid : String)
    (h3 : st.sessionId = some sid) :
    sendMessage st r o =
      ({ st with
          input := "",
          isTyping := false,
          messages := st.messages ++
            [{ sender := Sender.user, content := jsTrim st.input, isLoading := false },
             { sender := Sender.assistant, content := responseText o,
               isLoading := false }] }, true) := by
  have hcond : ¬ (jsTrim st.input = "" ∨ st.isTyping = true) := by
    simp [h1, h2]
  simp only [sendMessage, h3]
  rw [if_neg hcond, exchangeMessages_eq]

theorem cwSendMessage_dispatch (st : CWState) (r : Bool) (o : ChatOutcome)
    (h1 : ¬ jsTrim st.input = "") (h2 : st.isLoading = false) :
    cwSendMessage st r o =
      ({ st with
          input := "",
          isLoading := false,
          toolUsed := toolAfter st.toolUsed o,
          messages := st.messages ++
            [{ sender := Sender.user, content := jsTrim st.input, isLoading := false },
             { sender := Sender.assistant, content := responseText o,
               isLoading := false }] }, true) := by
  have hcond : ¬ (jsTrim st.input = "" ∨ st.isLoading = true) := by
    simp [h1, h2]
  simp only [cwSendMessage]
  rw [if_neg hcond, exchangeMessages_eq]

theorem take_of_append (msgs l : List Message) :
    msgs.length ≤ (msgs ++ l).length ∧ (msgs ++ l).take msgs.length = msgs :=
  ⟨by simp, List.take_left msgs l⟩

theorem chatStep_take_eq (st : ChatState) (ev : ChatEvent) :
    st.messages.length ≤ (chatStep st ev).messages.length ∧
    (chatStep st ev).messages.take st.messages.length = st.messages := by
  cases ev with
  | setInput s => exact ⟨le_refl _, List.take_length st.messages⟩
  | setPersonality p => exact ⟨le_refl _, List.take_length st.messages⟩
  | chooseFile => exact ⟨le_refl _, List.take_length st.messages⟩
  | upload o =>
      simp only [chatStep, handleUpload]
      by_cases hf : st.hasFile = false
      · rw [if_pos hf]
        exact ⟨le_refl _, List.take_length st.messages⟩
      · rw [if_neg hf]
        cases o with
        | ok sid summ => exact ⟨le_refl _, List.take_length st.messages⟩
        | httpError s => exact take_of_append st.messages [uploadErrMsg]
        | networkError => exact take_of_append st.messages [uploadErrMsg]
  | send r o =>
      simp only [chatStep, sendMessage]
      by_cases hc : jsTrim st.input = "" ∨ st.isTyping = true
      · rw [if_pos hc]
        exact ⟨le_refl _, List.take_length st.messages⟩
      · rw [if_neg hc]
        cases hs : st.sessionId with
        | none => exact take_of_append st.messages [guidanceMsg]
        | some sid =>
            have h := take_of_append st.messages
              [{ sender := Sender.user, content := jsTrim st.input, isLoading := false },
               { sender := Sender.assistant, content := responseText o, isLoading := false }]
            rw [← exchangeMessages_eq st.messages (jsTrim st.input) (responseText o) r] at h
            exact h

theorem chatRun_take_eq (st : ChatState) (evs : List ChatEvent) :
    st.messages.length ≤ (chatRun st evs).messages.length ∧
    (chatRun st evs).messages.take st.messages.length = st.messages := by
  induction evs generalizing st with
  | nil => exact ⟨le_refl _, List.take_length _⟩
  | cons ev rest ih =>
      have h1 := chatStep_take_eq st ev
      have h2 := ih (chatStep st ev)
      have hrun : chatRun st (ev :: rest) = chatRun (chatStep st ev) rest := rfl
      constructor
      · rw [hrun]; exact le_trans h1.1 h2.1
      · rw [hrun]
        have hmin : min st.messages.length (chatStep st ev).messages.length
            = st.messages.length := min_eq_left h1.1
        calc (chatRun (chatStep st ev) rest).messages.take st.messages.length
            = ((chatRun (chatStep st ev) rest).messages.take
                (chatStep st ev).messages.length).take st.messages.length := by
              rw [List.take_take, hmin]
          _ = (chatStep st ev).messages.take st.messages.length := by rw [h2.2]
          _ = st.messages := h1.2

theorem cwStep_toolUsed_cases (st : CWState) (ev : CWEvent) :
    (cwStep st ev).toolUsed = st.toolUsed ∨ (cwStep st ev).toolUsed = some bannerText := by
  cases ev with
  | setInput s => exact Or.inl rfl
  | send r o =>
      simp only [cwStep, cwSendMessage]
      by_cases hc : jsTrim st.input = "" ∨ st.isLoading = true
      · rw [if_pos hc]
        exact Or.inl rfl
      · rw [if_neg hc]
        exact toolAfter_cases st.toolUsed o

theorem cwRun_toolUsed_banner (st : CWState) (evs : List CWEvent)
    (h : st.toolUsed = some bannerText) :
    (cwRun st evs).toolUsed = some bannerText := by
  induction evs generalizing st with
  | nil => exact h
  | cons ev rest ih =>
      have hrun : cwRun st (ev :: rest) = cwRun (cwStep st ev) rest := rfl
      rw [hrun]
      apply ih
      rcases cwStep_toolUsed_cases st ev with hcase | hcase
      · rw [hcase, h]
      · exact hcase

/-! ## Sample states used for concrete instantiation -/

def sampleMsgs : List Message :=
  [{ sender := Sender.user, content := "hello", isLoading := false },
   { sender := Sender.assistant, content := "hi there", isLoading := false }]

def stSample : ChatState :=
  { personality := "factual", sessionId := some "s1", summary := "doc about cats",
    messages := sampleMsgs, input := "What color are cats?", isTyping := false,
    uploading := false, hasFile := true }

def stNoSession : ChatState :=
  { personality := "factual", sessionId := none, summary := "",
    messages := [], input := "hello there", isTyping := false,
    uploading := false, hasFile := true }

def stEmptyInput : ChatState :=
  { stSample with input := "   " }

def cwSample : CWState :=
  { messages := [], input := "Find recent cat studies", isLoading := false,
    toolUsed := none }

def cwBusy : CWState :=
  { cwSample with isLoading := true }

def cwBannerSample : CWState :=
  { messages := sampleMsgs, input := "more", isLoading := false,
    toolUsed := some bannerText }

/-! ## Claim theorems -/

/-- C1: for every `ask(question, researchMode=true)` issued while idle with a
non-null session, the in-flight transcript has the pending "Conducting deep
research..." placeholder appended immediately after the user message, and on
a successful response that same position is overwritten in place with the
returned answer text — or with the fixed "*(No answer)*" marker when the
answer is empty or missing — with pending cleared, so the transcript grows by
exactly two messages for the exchange. -/
theorem C1_research_placeholder_exchange (st : ChatState) (ans : Option String)
    (ts : Option (List String)) (sid : String)
    (h1 : ¬ jsTrim st.input = "") (h2 : st.isTyping = false)
    (h3 : st.sessionId = some sid) :
    pendingOf st.messages (jsTrim st.input) true
      = st.messages
          ++ [{ sender := Sender.user, content := jsTrim st.input, isLoading := false },
              placeholderMsg] ∧
    placeholderMsg.content = "Conducting deep research..." ∧
    placeholderMsg.isLoading = true ∧
    (sendMessage st true (ChatOutcome.ok ans ts)).fst.messages
      = (pendingOf st.messages (jsTrim st.input) true).set (st.messages.length + 1)
          { sender := Sender.assistant, content := jsOr ans noAnswerMarker,
            isLoading := false } ∧
    (sendMessage st true (ChatOutcome.ok ans ts)).fst.messages
      = st.messages
          ++ [{ sender := Sender.user, content := jsTrim st.input, isLoading := false },
              { sender := Sender.assistant, content := jsOr ans noAnswerMarker,
                isLoading := false }] ∧
    ((ans = none ∨ ans = some "") → jsOr ans noAnswerMarker = noAnswerMarker) ∧
    (∀ a, ans = some a → ¬ a = "" → jsOr ans noAnswerMarker = a) ∧
    (sendMessage st true (ChatOutcome.ok ans ts)).fst.messages.length
      = st.messages.length + 2 ∧
    (sendMessage st true (ChatOutcome.ok ans ts)).fst.isTyping = false := by
  have hd := sendMessage_dispatch st true (ChatOutcome.ok ans ts) h1 h2 sid h3
  refine ⟨rfl, rfl, rfl, ?_, ?_, ?_, ?_, ?_, ?_⟩
  · rw [hd]
    exact (set_after_pair st.messages
      { sender := Sender.user, content := jsTrim st.input, isLoading := false }
      placeholderMsg
      { sender := Sender.assistant, content := jsOr ans noAnswerMarker,
        isLoading := false }).symm
  · rw [hd]
    exact rfl
  · rintro (h | h) <;> rw [h] <;> rfl
  · intro a ha hne
    rw [ha]
    simp [jsOr, hne]
  · rw [hd]
    simp
  · rw [hd]

/-- C1 instantiated at a concrete research exchange. -/
theorem C1_research_placeholder_exchange_inst :
    (sendMessage stSample true
        (ChatOutcome.ok (some "Study X found...") (some ["Bing Search"]))).fst.messages
      = stSample.messages
          ++ [{ sender := Sender.user, content := jsTrim stSample.input, isLoading := false },
              { sender := Sender.assistant,
                content := jsOr (some "Study X found...") noAnswerMarker,
                isLoading := false }] :=
  (C1_research_placeholder_exchange stSample (some "Study X found...")
    (some ["Bing Search"]) "s1" (by decide) rfl rfl).2.2.2.2.1

/-- C2: every `ask` that reaches the dispatch step returns the lifecycle flag
to idle on every exit path (success, non-success status, network error,
malformed response), in both the chat page and the ChatWindow component. -/
theorem C2_lifecycle_returns_idle (stA : ChatState) (stB : CWState) (rA rB : Bool)
    (oA oB : ChatOutcome) (sid : String)
    (hA1 : ¬ jsTrim stA.input = "") (hA2 : stA.isTyping = false)
    (hA3 : stA.sessionId = some sid)
    (hB1 : ¬ jsTrim stB.input = "") (hB2 : stB.isLoading = false) :
    (sendMessage stA rA oA).fst.isTyping = false ∧
    (sendMessage stA rA oA).snd = true ∧
    (cwSendMessage stB rB oB).fst.isLoading = false ∧
    (cwSendMessage stB rB oB).snd = true := by
  have hdA := sendMessage_dispatch stA rA oA hA1 hA2 sid hA3
  have hdB := cwSendMessage_dispatch stB rB oB hB1 hB2
  rw [hdA, hdB]
  exact ⟨rfl, rfl, rfl, rfl⟩

/-- C2 instantiated at concrete failing outcomes. -/
theorem C2_lifecycle_returns_idle_inst :
    (sendMessage stSample true ChatOutcome.networkError).fst.isTyping = false ∧
    (cwSendMessage cwSample false (ChatOutcome.httpError 500)).fst.isLoading = false := by
  have h := C2_lifecycle_returns_idle stSample cwSample true false
    ChatOutcome.networkError (ChatOutcome.httpError 500) "s1"
    (by decide) rfl rfl (by decide) rfl
  exact ⟨h.1, h.2.2.1⟩

/-- C3: every failed chat exchange writes the fixed error text at the correct
location (overwriting the pending placeholder in place in research mode,
otherwise appended), returns the lifecycle to idle, and — in the ChatWindow
component — leaves the advisory flag untouched. -/
theorem C3_failure_reconciliation (stA : ChatState) (stB : CWState) (rA rB : Bool)
    (oA oB : ChatOutcome) (sid : String)
    (hA1 : ¬ jsTrim stA.input = "") (hA2 : stA.isTyping = false)
    (hA3 : stA.sessionId = some sid) (hoA : oA.isFailure = true)
    (hB1 : ¬ jsTrim stB.input = "") (hB2 : stB.isLoading = false)
    (hoB : oB.isFailure = true) :
    (sendMessage stA true oA).fst.messages
      = (pendingOf stA.messages (jsTrim stA.input) true).set (stA.messages.length + 1)
          { sender := Sender.assistant, content := errText, isLoading := false } ∧
    (sendMessage stA rA oA).fst.messages
      = stA.messages
          ++ [{ sender := Sender.user, content := jsTrim stA.input, isLoading := false },
              { sender := Sender.assistant, content := errText, isLoading := false }] ∧
    (sendMessage stA rA oA).fst.isTyping = false ∧
    (cwSendMessage stB rB oB).fst.messages
      = stB.messages
          ++ [{ sender := Sender.user, content := jsTrim stB.input, isLoading := false },
              { sender := Sender.assistant, content := errText, isLoading := false }] ∧
    (cwSendMessage stB rB oB).fst.isLoading = false ∧
    (cwSendMessage stB rB oB).fst.toolUsed = stB.toolUsed := by
  have hdA := sendMessage_dispatch stA rA oA hA1 hA2 sid hA3
  have hdAr := sendMessage_dispatch stA true oA hA1 hA2 sid hA3
  have hdB := cwSendMessage_dispatch stB rB oB hB1 hB2
  rw [hdA, hdAr, hdB, responseText_of_failure oA hoA,
     toolAfter_of_failure stB.toolUsed oB hoB, responseText_of_failure oB hoB]
  refine ⟨?_, rfl, rfl, rfl, rfl, rfl⟩
  exact (set_after_pair stA.messages
    { sender := Sender.user, content := jsTrim stA.input, isLoading := false }
    placeholderMsg
    { sender := Sender.assistant, content := errText, isLoading := false }).symm

/-- C3 instantiated at a concrete HTTP 500 failure. -/
theorem C3_failure_reconciliation_inst :
    (sendMessage stSample false (ChatOutcome.httpError 500)).fst.messages
      = stSample.messages
          ++ [{ sender := Sender.user, content := jsTrim stSample.input, isLoading := false },
              { sender := Sender.assistant, content := errText, isLoading := false }] :=
  (C3_failure_reconciliation stSample cwSample false false
    (ChatOutcome.httpError 500) ChatOutcome.networkError "s1"
    (by decide) rfl rfl rfl (by decide) rfl rfl).2.1

/-- C4 counterexample: a successful response whose `tools_used` list is
non-empty but does not contain the literal "Bing Search" does not set the
advisory flag, contradicting the claim that any non-empty tool list sets it. -/
theorem C4_nonbing_counterexample :
    ((["DuckDuckGo"] : List String) ≠ []) ∧
    (cwSendMessage cwSample false
        (ChatOutcome.ok (some "Study Y found...") (some ["DuckDuckGo"]))).snd = true ∧
    (cwSendMessage cwSample false
        (ChatOutcome.ok (some "Study Y found...") (some ["DuckDuckGo"]))).fst.toolUsed
      = none := by
  refine ⟨by decide, by decide, by decide⟩

/-- C4 (amended): for every successful chat response, the ChatWindow
controller sets the advisory flag exactly when `tools_used` contains
"Bing Search", leaves it unchanged otherwise, and in either case adds no
extra message to the transcript beyond the exchange's reconciliation. -/
theorem C4_banner_on_bing (st : CWState) (r : Bool) (ans : Option String)
    (ts : List String)
    (h1 : ¬ jsTrim st.input = "") (h2 : st.isLoading = false) :
    ("Bing Search" ∈ ts →
      (cwSendMessage st r (ChatOutcome.ok ans (some ts))).fst.toolUsed
        = some bannerText) ∧
    (¬ ("Bing Search" ∈ ts) →
      (cwSendMessage st r (ChatOutcome.ok ans (some ts))).fst.toolUsed
        = st.toolUsed) ∧
    (cwSendMessage st r (ChatOutcome.ok ans (some ts))).fst.messages
      = st.messages
          ++ [{ sender := Sender.user, content := jsTrim st.input, isLoading := false },
              { sender := Sender.assistant, content := jsOr ans noAnswerMarker,
                isLoading := false }] := by
  have hd := cwSendMessage_dispatch st r (ChatOutcome.ok ans (some ts)) h1 h2
  rw [hd]
  refine ⟨?_, ?_, rfl⟩
  · intro hm
    simp [toolAfter, updateToolUsed, hm]
  · intro hm
    simp [toolAfter, updateToolUsed, hm]

/-- C4 (amended) instantiated at a response whose tool list contains
"Bing Search". -/
theorem C4_banner_on_bing_inst :
    (cwSendMessage cwSample true
        (ChatOutcome.ok (some "Study X found...") (some ["Bing Search"]))).fst.toolUsed
      = some bannerText :=
  (C4_banner_on_bing cwSample true (some "Study X found...") ["Bing Search"]
    (by decide) rfl).1 (by decide)

/-- C5: for every `ask(question, researchMode=false)` issued while idle with a
non-null session and a non-empty returned answer, the transcript ends with
exactly two new messages — the user message carrying the trimmed question,
then a terminal assistant message carrying the answer — and the lifecycle
ends idle. -/
theorem C5_plain_answer_exchange (st : ChatState) (a : String)
    (ts : Option (List String)) (sid : String)
    (h1 : ¬ jsTrim st.input = "") (h2 : st.isTyping = false)
    (h3 : st.sessionId = some sid) (h4 : ¬ a = "") :
    (sendMessage st false (ChatOutcome.ok (some a) ts)).fst.messages
      = st.messages
          ++ [{ sender := Sender.user, content := jsTrim st.input, isLoading := false },
              { sender := Sender.assistant, content := a, isLoading := false }] ∧
    (sendMessage st false (ChatOutcome.ok (some a) ts)).fst.messages.length
      = st.messages.length + 2 ∧
    (sendMessage st false (ChatOutcome.ok (some a) ts)).fst.isTyping = false := by
  have hd := sendMessage_dispatch st false (ChatOutcome.ok (some a) ts) h1 h2 sid h3
  have hresp : responseText (ChatOutcome.ok (some a) ts) = a := by
    simp [responseText, jsOr, h4]
  rw [hd, hresp]
  refine ⟨rfl, ?_, rfl⟩
  simp

/-- C5 instantiated at Scenario B. -/
theorem C5_plain_answer_exchange_inst :
    (sendMessage stSample false
        (ChatOutcome.ok (some "Usually orange, black, or white.") none)).fst.messages
      = stSample.messages
          ++ [{ sender := Sender.user, content := jsTrim stSample.input, isLoading := false },
              { sender := Sender.assistant, content := "Usually orange, black, or white.",
                isLoading := false }] :=
  (C5_plain_answer_exchange stSample "Usually orange, black, or white." none "s1"
    (by decide) rfl rfl (by decide)).1

/-- C6: every `ask` issued with a null session (non-empty question, not
sending) appends exactly one guidance message, makes no network call, and does
not transition into sending: the resulting state differs from the input state
only by the appended guidance message, and the dispatch flag is false. -/
theorem C6_no_session_guidance (st : ChatState) (r : Bool) (o : ChatOutcome)
    (h1 : ¬ jsTrim st.input = "") (h2 : st.isTyping = false)
    (h3 : st.sessionId = none) :
    sendMessage st r o
      = ({ st with messages := st.messages ++ [guidanceMsg] }, false) := by
  have hcond : ¬ (jsTrim st.input = "" ∨ st.isTyping = true) := by
    simp [h1, h2]
  simp only [sendMessage, h3]
  rw [if_neg hcond]

/-- C6 instantiated at a concrete session-less ask. -/
theorem C6_no_session_guidance_inst :
    sendMessage stNoSession false ChatOutcome.networkError
      = ({ stNoSession with messages := stNoSession.messages ++ [guidanceMsg] }, false) :=
  C6_no_session_guidance stNoSession false ChatOutcome.networkError (by decide) rfl rfl

/-- C7: every failed document upload leaves the Session unchanged — the
session id (null before the upload) stays null and the summary is untouched —
and appends exactly one assistant-style error message to the transcript. -/
theorem C7_upload_failure (st : ChatState) (o : UploadOutcome)
    (h1 : st.hasFile = true) (h2 : o.isFailure = true) (h3 : st.sessionId = none) :
    handleUpload st o
      = { st with uploading := false, messages := st.messages ++ [uploadErrMsg] } ∧
    (handleUpload st o).sessionId = none ∧
    (handleUpload st o).summary = st.summary := by
  have hf : ¬ st.hasFile = false := by
    rw [h1]
    decide
  have hu : handleUpload st o
      = { st with uploading := false, messages := st.messages ++ [uploadErrMsg] } := by
    cases o with
    | ok sid summ => simp [UploadOutcome.isFailure] at h2
    | httpError s =>
        simp only [handleUpload]
        rw [if_neg hf]
    | networkError =>
        simp only [handleUpload]
        rw [if_neg hf]
  refine ⟨hu, ?_, ?_⟩
  · rw [hu]
    exact h3
  · rw [hu]

/-- C7 instantiated at a concrete failing upload. -/
theorem C7_upload_failure_inst :
    handleUpload stNoSession (UploadOutcome.httpError 500)
      = { stNoSession with
          uploading := false
          messages := stNoSession.messages ++ [uploadErrMsg] } :=
  (C7_upload_failure stNoSession (UploadOutcome.httpError 500) rfl rfl rfl).1

/-- C8: messages already in the transcript are never reordered, removed, or
changed by later operations: after any further events, the earlier transcript
is preserved verbatim as a prefix, so for `m1` at position `i` appended before
`m2` at position `j` (`i < j`), both still occupy the same positions with the
same content, and `m1` still precedes `m2`. -/
theorem C8_transcript_order (init : ChatState) (evs evs2 : List ChatEvent) (i j : Nat)
    (hij : i < j) (hj : j < (chatRun init evs).messages.length) :
    j < (chatRun init (evs ++ evs2)).messages.length ∧
    (chatRun init (evs ++ evs2)).messages.take (chatRun init evs).messages.length
      = (chatRun init evs).messages ∧
    (chatRun init (evs ++ evs2)).messages[i]? = (chatRun init evs).messages[i]? ∧
    (chatRun init (evs ++ evs2)).messages[j]? = (chatRun init evs).messages[j]? := by
  have happ : chatRun init (evs ++ evs2) = chatRun (chatRun init evs) evs2 := by
    simp [chatRun, List.foldl_append]
  have h := chatRun_take_eq (chatRun init evs) evs2
  rw [happ]
  have hi : i < (chatRun init evs).messages.length := lt_trans hij hj
  refine ⟨lt_of_lt_of_le hj h.1, h.2, ?_, ?_⟩
  · calc (chatRun (chatRun init evs) evs2).messages[i]?
        = ((chatRun (chatRun init evs) evs2).messages.take
            (chatRun init evs).messages.length)[i]? := by
          rw [List.getElem?_take, if_pos hi]
      _ = (chatRun init evs).messages[i]? := by rw [h.2]
  · calc (chatRun (chatRun init evs) evs2).messages[j]?
        = ((chatRun (chatRun init evs) evs2).messages.take
            (chatRun init evs).messages.length)[j]? := by
          rw [List.getElem?_take, if_pos hj]
      _ = (chatRun init evs).messages[j]? := by rw [h.2]

/-- C8 instantiated: the two sample messages keep their positions across a
further failing exchange. -/
theorem C8_transcript_order_inst :
    (chatRun stSample ([] ++ [ChatEvent.send false ChatOutcome.networkError])).messages[0]?
      = (chatRun stSample []).messages[0]? :=
  (C8_transcript_order stSample [] [ChatEvent.send false ChatOutcome.networkError] 0 1
    (by decide) (by decide)).2.2.1

/-- C9: every `ask` whose question is empty after trimming, or issued while
already sending, is a no-op in both components: the full state (transcript,
lifecycle, session) is returned unchanged and no network call is made. -/
theorem C9_guard_noop (stA : ChatState) (stB : CWState) (rA rB : Bool)
    (oA oB : ChatOutcome)
    (hA : jsTrim stA.input = "" ∨ stA.isTyping = true)
    (hB : jsTrim stB.input = "" ∨ stB.isLoading = true) :
    sendMessage stA rA oA = (stA, false) ∧
    cwSendMessage stB rB oB = (stB, false) := by
  constructor
  · simp only [sendMessage]
    rw [if_pos hA]
  · simp only [cwSendMessage]
    rw [if_pos hB]

/-- C9 instantiated at a whitespace-only question and at an in-flight state. -/
theorem C9_guard_noop_inst :
    sendMessage stEmptyInput false ChatOutcome.networkError = (stEmptyInput, false) ∧
    cwSendMessage cwBusy false ChatOutcome.networkError = (cwBusy, false) :=
  C9_guard_noop stEmptyInput cwBusy false false
    ChatOutcome.networkError ChatOutcome.networkError
    (Or.inl (by decide)) (Or.inr rfl)

/-- C10: once the ChatWindow advisory banner state holds the banner text, no
subsequent sequence of operations (input edits, non-research questions,
research questions, failed requests) ever clears it. -/
theorem C10_banner_never_cleared (st : CWState) (evs : List CWEvent)
    (h : st.toolUsed = some bannerText) :
    (cwRun st evs).toolUsed = some bannerText :=
  cwRun_toolUsed_banner st evs h

/-- C10 instantiated across later non-research and failing exchanges. -/
theorem C10_banner_never_cleared_inst :
    (cwRun cwBannerSample
        [CWEvent.setInput "another question",
         CWEvent.send false (ChatOutcome.ok (some "plain answer") none),
         CWEvent.setInput "again",
         CWEvent.send true ChatOutcome.networkError]).toolUsed
      = some bannerText :=
  C10_banner_never_cleared cwBannerSample
    [CWEvent.setInput "another question",
     CWEvent.send false (ChatOutcome.ok (some "plain answer") none),
     CWEvent.setInput "again",
     CWEvent.send true ChatOutcome.networkError] rfl

end AIRA
